import Mathlib

/-!
Shallow embedding of `src/lib/cli/interactive-setup/service.js` — the
interactive project-scaffolding step of a serverless CLI.

Modelling conventions:
* JavaScript errors become `JsError`: `ServerlessError(message, code)` is the
  system's structured error; every other thrown value is `generic` with an
  optional `code` property (e.g. `ENOENT`).  The source's
  `err.constructor.name !== 'ServerlessError'` test becomes
  `JsError.isServerlessError`, and `err.code` becomes `JsError.code`.
* CLI options are a record of the four recognized keys; `none` means the key
  is absent, `some s` that it is present with value `s`.  JavaScript
  truthiness of a string option (`if (options.name)`) is `optTruthy`:
  present and non-empty.  Key presence (`Object.keys(options)` membership)
  is `Option.isSome`.
* External collaborators (inquirer prompts, `fs.promises.access`,
  `downloadTemplateFromRepo`, `createFromLocalTemplate`, `spawn`,
  `resolveConfigurationPath`, `readConfiguration`, `resolveVariables`) are
  oracles in `Env`.  Each call the flow performs is recorded in a trace of
  `Effect`s; a computation is a pair of an `Except` outcome and the trace.
* `chalk.green`/`chalk.yellow` colouring is dropped: stdout text is modelled
  as the plain string.  `path.join a b` is modelled as `a ++ "/" ++ b`
  (no claim depends on path normalization).  `jsTrim` models the
  JavaScript `trim()` (strip surrounding whitespace).
-/

deriving instance DecidableEq for Except

namespace Serverless

/-- A thrown JavaScript value: either this system's structured
`ServerlessError(message, code)` or any other error, which may carry a
`code` property (such as `ENOENT`). -/
inductive JsError where
  | serverless (message : String) (code : String)
  | generic (message : String) (code : Option String)
deriving DecidableEq, Repr

/-- The `code` property of a thrown value (`err.code`). -/
def JsError.code : JsError → Option String
  | .serverless _ c => some c
  | .generic _ c => c

/-- The `message` property of a thrown value (`err.message`). -/
def JsError.message : JsError → String
  | .serverless m _ => m
  | .generic m _ => m

/-- The source's `err.constructor.name === 'ServerlessError'` test. -/
def JsError.isServerlessError : JsError → Bool
  | .serverless _ _ => true
  | .generic _ _ => false

/-- The four recognized CLI option keys; `none` = key absent,
`some s` = key present with string value `s`. -/
structure Options where
  name : Option String := none
  templatePath : Option String := none
  template : Option String := none
  templateUrl : Option String := none
deriving DecidableEq, Repr

/-- JavaScript truthiness of a string-valued option: present and non-empty. -/
def optTruthy : Option String → Bool
  | none => false
  | some s => !s.isEmpty

/-- How many of the three template-source keys are present
(`Object.keys(context.options).filter((key) => templateOptions.has(key)).length`). -/
def Options.presentTemplateOptionCount (o : Options) : Nat :=
  (if o.templatePath.isSome then 1 else 0) +
  (if o.template.isSome then 1 else 0) +
  (if o.templateUrl.isSome then 1 else 0)

/-- Whether any of the keys `name`, `template-path`, `template`,
`template-url` is present
(`Object.keys(options).some((key) => notApplicableOptions.has(key))`). -/
def Options.hasNotApplicableOption (o : Options) : Bool :=
  o.name.isSome || o.templatePath.isSome || o.template.isSome || o.templateUrl.isSome

/-- The mutable session context passed by the invoking CLI.  `configuration`
is kept opaque as a string payload produced by the configuration-reading
collaborator. -/
structure Ctx where
  cwd : String
  options : Options
  serviceDir : Option String
  configurationFilename : Option String
  configuration : Option String
deriving DecidableEq, Repr

/-- One observable interaction of the flow with the outside world, in the
order the source performs them. -/
inductive Effect where
  | stdout (text : String)
  | promptConfirmNewProject
  | promptProjectType
  | promptProjectName
  | fsAccess (path : String)
  | downloadTemplate (url : String) (templateName : Option String) (projectName : String)
  | createFromLocalTemplate (templatePath : String) (projectDir : String) (projectName : String)
  | npmInstall (command : String) (projectDir : String)
  | unlink (path : String)
  | resolveConfigurationPath (projectDir : String)
  | readConfiguration (path : String)
  | resolveVariables
deriving DecidableEq, Repr

/-- A step of the flow: an outcome (normal value or thrown error) together
with the trace of effects performed before the step finished. -/
abbrev M (α : Type) : Type := Except JsError α × List Effect

/-- Sequencing: a thrown error short-circuits, traces accumulate in order. -/
def M.bind {α β : Type} (x : M α) (f : α → M β) : M β :=
  match x with
  | (.error e, tr) => (.error e, tr)
  | (.ok a, tr) => match f a with
    | (r, tr2) => (r, tr ++ tr2)

/-- Prepend already-performed effects to a computation. -/
def M.withEffects {α : Type} (tr : List Effect) (x : M α) : M α :=
  (x.1, tr ++ x.2)

/-- Oracle for every external collaborator the flow consults.  A download or
spawn outcome of `none` means the collaborator succeeded; `some err` means
it rejected with `err`.  Prompt answers are the values inquirer resolves
with (for the name prompt: the finally accepted raw input, before the
source's own `.trim()`). -/
structure Env where
  processCwd : String
  confirmAnswer : String
  projectTypeAnswer : String
  projectNameAnswer : String
  pathExists : String → Bool
  downloadError : String → Option String → String → Option JsError
  localCreateError : Option JsError
  npmCommand : String
  spawnError : Option JsError
  resolveConfigPath : String → String
  readConfigurationAt : String → String
  resolveVariablesOn : String → String

/-- `path.join` on one segment, without normalization. -/
def joinPath (dir entry : String) : String := dir ++ "/" ++ entry

/-- JavaScript `String.prototype.trim`: strip leading and trailing
whitespace. -/
def jsTrim (s : String) : String :=
  String.mk (((s.toList.dropWhile Char.isWhitespace).reverse.dropWhile Char.isWhitespace).reverse)

/-- A character allowed after the first position of a service name
(`[a-zA-Z0-9-]`). -/
def isServiceNameChar (c : Char) : Bool := c.isAlpha || c.isDigit || c == '-'

/-- The source's `RegExp.prototype.test.bind(/^[a-zA-Z][a-zA-Z0-9-]\x7b0,100\x7d$/)`:
one alphabetic character followed by up to 100 alphanumerics or hyphens. -/
def isValidServiceName (s : String) : Bool :=
  match s.toList with
  | [] => false
  | c :: rest => c.isAlpha && rest.all isServiceNameChar && decide (rest.length ≤ 100)

/-- The fixed guidance message for an invalid project name. -/
def invalidProjectNameMessage : String :=
  "Project name is not valid.\n" ++
  "   - It should only contain alphanumeric and hyphens.\n" ++
  "   - It should start with an alphabetic character.\n" ++
  "   - Shouldn't exceed 128 characters"

/-- Message of `MULTIPLE_TEMPLATE_OPTIONS_PROVIDED` (set iteration order:
template-path, template, template-url). -/
def multipleTemplateOptionsMessage : String :=
  "You can provide only one of: \"--template-path\", \"--template\", \"--template-url\" options"

/-- Message of `NOT_APPLICABLE_SERVICE_OPTIONS`. -/
def notApplicableServiceOptionsMessage : String :=
  "Cannot setup a new service when being in context of another service " ++
  "(\"--name\", \"--template-path\", \"--template\", \"--template-url\" options cannot be applied)"

/-- Message of `INVALID_TEMPLATE_URL`, wrapping the underlying message. -/
def invalidTemplateUrlMessage (underlying : String) : String :=
  "Could not download template from provided url. Ensure that the template provided with " ++
  "\"--template-url\" exists: " ++ underlying

/-- Message of `INVALID_TEMPLATE`. -/
def invalidTemplateMessage : String :=
  "Could not find provided template. Ensure that the template provided with \"--template\" exists."

/-- Message of `TEMPLATE_DOWNLOAD_FAILED`, wrapping the underlying message. -/
def templateDownloadFailedMessage (underlying : String) : String :=
  "Could not download template. Ensure that you are using the latest version of " ++
  "Serverless Framework: " ++ underlying

/-- Message of `DEPENDENCIES_INSTALL_FAILED`, wrapping the underlying message. -/
def dependenciesInstallFailedMessage (underlying : String) : String :=
  "Cannot install dependencies: " ++ underlying

/-- Collision message, naming the taken path. -/
def pathTakenMessage (name : String) : String :=
  "Path " ++ name ++ " is already taken"

/-- Stdout line before downloading from an explicit url. -/
def downloadingFromUrlMessage (url : String) : String :=
  "\nDownloading template from provided url: " ++ url ++ "...\n"

/-- Stdout line before downloading a named template. -/
def downloadingTemplateMessage (projectType : String) : String :=
  "\nDownloading \"" ++ projectType ++ "\" template...\n"

/-- Stdout line before running the dependency install. -/
def installingDependenciesMessage (projectName : String) : String :=
  "\nInstalling dependencies with \"npm\" in \"" ++ projectName ++ "\" folder.\n"

/-- Warning emitted when the npm binary is missing (colour dropped). -/
def npmNotFoundWarning : String :=
  "\nCannot install dependencies as \"npm\" installation could not be found. " ++
  "Please install npm and run \"npm install\" in directory of created service.\n"

/-- Hint printed when the user picks the `other` template choice. -/
def otherTemplateHintMessage : String :=
  "\nRun “serverless create --help” to view available templates and create a new project " ++
  "from one of those templates.\n"

/-- Final success line (colour dropped). -/
def successMessage (projectName : String) : String :=
  "\nProject successfully created in '" ++ projectName ++ "' folder.\n"

/-- The validator the interactive name prompt registers with inquirer:
trims the input, checks the naming pattern, then checks for a path
collision under the working directory.  `none` = accepted; `some msg` =
rejected with `msg` (inquirer then re-prompts). -/
def projectNameValidate (pathExists : String → Bool) (workingDir input : String) :
    Option String :=
  let t := jsTrim input
  if !isValidServiceName t then some invalidProjectNameMessage
  else if pathExists (joinPath workingDir t) then some (pathTakenMessage t)
  else none

/-- `projectNameInput`: prompts for a name and returns the accepted answer,
trimmed (`).projectName.trim()`).  Inquirer re-prompts until
`projectNameValidate` accepts, so `Env.projectNameAnswer` stands for the
finally accepted raw input; the validator's own filesystem probes happen
inside the prompt interaction. -/
def projectNameInput (env : Env) : M String :=
  (.ok (jsTrim env.projectNameAnswer), [Effect.promptProjectName])

/-- `resolveProjectNameInput`: with a truthy `name` option, validate it
(untrimmed), probe `join(workingDir, name)` for a collision, and return it
verbatim; with the key absent or empty, fall through to the interactive
prompt.  (The prompt default derived from the project type only affects the
UI and is not modelled.) -/
def resolveProjectNameInput (env : Env) (options : Options) (workingDir : String) :
    M String :=
  match options.name with
  | some n =>
    if n.isEmpty then projectNameInput env
    else if !isValidServiceName n then
      (.error (.serverless invalidProjectNameMessage "INVALID_PROJECT_NAME"), [])
    else if env.pathExists (joinPath workingDir n) then
      (.error (.serverless (pathTakenMessage n) "TARGET_FOLDER_ALREADY_EXISTS"),
        [Effect.fsAccess (joinPath workingDir n)])
    else
      (.ok n, [Effect.fsAccess (joinPath workingDir n)])
  | none => projectNameInput env

/-- `isApplicable`: hard error if a service directory is active (truthy) and
any scaffold-only option key is present; otherwise applicable exactly when
no service directory is active. -/
def isApplicable (serviceDir : Option String) (options : Options) :
    Except JsError Bool :=
  if optTruthy serviceDir && options.hasNotApplicableOption then
    .error (.serverless notApplicableServiceOptionsMessage "NOT_APPLICABLE_SERVICE_OPTIONS")
  else
    .ok (!optTruthy serviceDir)

/-- The tail of `run` after the project directory is materialized: probe for
`package.json`, conditionally install dependencies (missing npm binary
downgrades to a warning, any other spawn failure becomes
`DEPENDENCIES_INSTALL_FAILED`), best-effort unlink of
`serverless.template.yml`, success message, then populate the session
context (`serviceDir`, `configurationFilename`, `configuration` after
variable resolution). -/
def finishProject (env : Env) (ctx : Ctx) (projectName projectDir : String) : M Ctx :=
  let pkgPath := joinPath projectDir "package.json"
  let installPart : M Unit :=
    if env.pathExists pkgPath then
      match env.spawnError with
      | none =>
        (.ok (), [Effect.stdout (installingDependenciesMessage projectName),
                  Effect.npmInstall env.npmCommand projectDir])
      | some e =>
        if e.code = some "ENOENT" then
          (.ok (), [Effect.stdout (installingDependenciesMessage projectName),
                    Effect.npmInstall env.npmCommand projectDir,
                    Effect.stdout npmNotFoundWarning])
        else
          (.error (.serverless (dependenciesInstallFailedMessage e.message)
              "DEPENDENCIES_INSTALL_FAILED"),
            [Effect.stdout (installingDependenciesMessage projectName),
             Effect.npmInstall env.npmCommand projectDir])
    else (.ok (), [])
  M.bind (M.withEffects [Effect.fsAccess pkgPath] installPart) (fun _ =>
    let configurationPath := env.resolveConfigPath projectDir
    (.ok { ctx with
            serviceDir := some projectDir,
            configurationFilename := some (configurationPath.drop (projectDir.length + 1)),
            configuration := some (env.resolveVariablesOn
              (env.readConfigurationAt configurationPath)) },
      [Effect.unlink (joinPath projectDir "serverless.template.yml"),
       Effect.stdout (successMessage projectName),
       Effect.resolveConfigurationPath projectDir,
       Effect.readConfiguration configurationPath,
       Effect.resolveVariables]))

/-- The `template-path` branch of `run`: local-copy failures propagate
unchanged. -/
def templatePathBranch (env : Env) (ctx : Ctx) (workingDir tpath : String) : M Ctx :=
  M.bind (resolveProjectNameInput env ctx.options workingDir) (fun projectName =>
    let projectDir := joinPath workingDir projectName
    let create : M Unit :=
      match env.localCreateError with
      | none => (.ok (), [])
      | some err => (.error err, [])
    M.bind (M.withEffects [Effect.createFromLocalTemplate tpath projectDir projectName] create)
      (fun _ => finishProject env ctx projectName projectDir))

/-- The `template-url` branch of `run`: a failure that is not a
`ServerlessError` is re-thrown unchanged; a `ServerlessError` is wrapped as
`INVALID_TEMPLATE_URL`. -/
def templateUrlBranch (env : Env) (ctx : Ctx) (workingDir url : String) : M Ctx :=
  M.bind (resolveProjectNameInput env ctx.options workingDir) (fun projectName =>
    let projectDir := joinPath workingDir projectName
    let download : M Unit :=
      match env.downloadError url none projectName with
      | none => (.ok (), [])
      | some err =>
        if !err.isServerlessError then (.error err, [])
        else
          (.error (.serverless (invalidTemplateUrlMessage err.message) "INVALID_TEMPLATE_URL"),
            [])
    M.bind (M.withEffects [Effect.stdout (downloadingFromUrlMessage url),
                           Effect.downloadTemplate url none projectName] download)
      (fun _ => finishProject env ctx projectName projectDir))

/-- The named-template branch of `run` (reached with a truthy `template`
option or an interactively picked type): an `ENOENT` failure with a truthy
`template` option becomes `INVALID_TEMPLATE`; otherwise a failure that is
not a `ServerlessError` is re-thrown unchanged, and a `ServerlessError` is
wrapped as `TEMPLATE_DOWNLOAD_FAILED`. -/
def namedTemplateBranch (env : Env) (ctx : Ctx) (workingDir projectType : String) : M Ctx :=
  M.bind (resolveProjectNameInput env ctx.options workingDir) (fun projectName =>
    let projectDir := joinPath workingDir projectName
    let templateUrl := "https://github.com/serverless/examples/tree/master/" ++ projectType
    let download : M Unit :=
      match env.downloadError templateUrl (some projectType) projectName with
      | none => (.ok (), [])
      | some err =>
        if err.code = some "ENOENT" ∧ optTruthy ctx.options.template = true then
          (.error (.serverless invalidTemplateMessage "INVALID_TEMPLATE"), [])
        else if !err.isServerlessError then (.error err, [])
        else
          (.error (.serverless (templateDownloadFailedMessage err.message)
              "TEMPLATE_DOWNLOAD_FAILED"), [])
    M.bind (M.withEffects [Effect.stdout (downloadingTemplateMessage projectType),
                           Effect.downloadTemplate templateUrl (some projectType) projectName]
        download)
      (fun _ => finishProject env ctx projectName projectDir))

/-- The interactive template picker: choosing `other` prints a hint and
returns with the context untouched; any other choice proceeds as a named
template. -/
def interactivePickBranch (env : Env) (ctx : Ctx) (workingDir : String) : M Ctx :=
  if env.projectTypeAnswer = "other" then
    (.ok ctx, [Effect.promptProjectType, Effect.stdout otherTemplateHintMessage])
  else
    M.withEffects [Effect.promptProjectType]
      (namedTemplateBranch env ctx workingDir env.projectTypeAnswer)

/-- Dispatch inside the final `else` of `run`: a truthy `template` option
names the template directly, else the interactive picker runs. -/
def pickOrUseTemplate (env : Env) (ctx : Ctx) (workingDir : String) : M Ctx :=
  match ctx.options.template with
  | some t => if t.isEmpty then interactivePickBranch env ctx workingDir
              else namedTemplateBranch env ctx workingDir t
  | none => interactivePickBranch env ctx workingDir

/-- Template-source dispatch of `run` (truthiness precedence:
`template-path`, then `template-url`, then the named/interactive branch). -/
def runAfterGuard (env : Env) (ctx : Ctx) (workingDir : String) : M Ctx :=
  if optTruthy ctx.options.templatePath then
    templatePathBranch env ctx workingDir (ctx.options.templatePath.getD "")
  else if optTruthy ctx.options.templateUrl then
    templateUrlBranch env ctx workingDir (ctx.options.templateUrl.getD "")
  else pickOrUseTemplate env ctx workingDir

/-- `run`: working-directory resolution, the multiple-template-options
guard (on key presence), the optional create-confirmation prompt (on
truthiness of all four options), then the template-source dispatch. -/
def run (env : Env) (ctx : Ctx) : M Ctx :=
  let workingDir := if ctx.cwd.isEmpty then env.processCwd else ctx.cwd
  if 1 < ctx.options.presentTemplateOptionCount then
    (.error (.serverless multipleTemplateOptionsMessage "MULTIPLE_TEMPLATE_OPTIONS_PROVIDED"),
      [])
  else if !optTruthy ctx.options.name && !optTruthy ctx.options.templatePath &&
          !optTruthy ctx.options.template && !optTruthy ctx.options.templateUrl then
    if env.confirmAnswer = "Yes" then
      M.withEffects [Effect.promptConfirmNewProject] (runAfterGuard env ctx workingDir)
    else (.ok ctx, [Effect.promptConfirmNewProject])
  else runAfterGuard env ctx workingDir

/-- A fully concrete collaborator oracle used to instantiate scenarios:
every path probe fails (empty working directory), downloads and spawns
succeed, the configuration file is `serverless.yml`. -/
def envDefault : Env where
  processCwd := "/cwd"
  confirmAnswer := "Yes"
  projectTypeAnswer := "aws-node"
  projectNameAnswer := "answered-name"
  pathExists := fun _ => false
  downloadError := fun _ _ _ => none
  localCreateError := none
  npmCommand := "npm"
  spawnError := none
  resolveConfigPath := fun d => d ++ "/serverless.yml"
  readConfigurationAt := fun _ => "configuration-data"
  resolveVariablesOn := fun c => c

/-- A session context at `/work` with the given options and no service
directory active yet. -/
def ctxWith (o : Options) : Ctx :=
  { cwd := "/work", options := o, serviceDir := none,
    configurationFilename := none, configuration := none }

/-- `envDefault` with the template download rejecting with `err`. -/
def envDownloadFails (err : JsError) : Env :=
  { envDefault with downloadError := fun _ _ _ => some err }

/-- `envDefault` with a `package.json` present in the `demo1` project
directory and the npm install subprocess resolving as `spawnErr` says.  In
the `demo1` scenario the only probed paths are `/work/demo1` (length 11,
absent) and `/work/demo1/package.json` (length 24, present), so presence
is discriminated by path length. -/
def envSpawnFails (spawnErr : Option JsError) : Env :=
  { envDefault with
      pathExists := fun p => decide (15 ≤ p.length),
      spawnError := spawnErr }

/-- Context with an explicit remote url and an explicit name. -/
def ctxUrlDemo : Ctx := ctxWith { templateUrl := some "https://host/tpl", name := some "demo1" }

/-- Context with an explicit named template and an explicit name. -/
def ctxDemoNamed : Ctx := ctxWith { template := some "aws-node", name := some "demo1" }

/-- Effects performed up to and including a url-path download attempt. -/
def urlDownloadTrace : List Effect :=
  [Effect.fsAccess "/work/demo1",
   Effect.stdout (downloadingFromUrlMessage "https://host/tpl"),
   Effect.downloadTemplate "https://host/tpl" none "demo1"]

/-- Effects performed up to and including a named-template download attempt
with an explicit template option. -/
def namedDownloadTrace : List Effect :=
  [Effect.fsAccess "/work/demo1",
   Effect.stdout (downloadingTemplateMessage "aws-node"),
   Effect.downloadTemplate "https://github.com/serverless/examples/tree/master/aws-node"
     (some "aws-node") "demo1"]

/-- Effects performed up to and including a named-template download attempt
after an interactive pick of `aws-node` and an interactively entered name. -/
def pickedDownloadTrace : List Effect :=
  [Effect.promptConfirmNewProject, Effect.promptProjectType, Effect.promptProjectName,
   Effect.stdout (downloadingTemplateMessage "aws-node"),
   Effect.downloadTemplate "https://github.com/serverless/examples/tree/master/aws-node"
     (some "aws-node") "answered-name"]

/-- Effects of the `demo1` scenario up to and including the npm install
invocation (manifest present). -/
def installAttemptTrace : List Effect :=
  [Effect.fsAccess "/work/demo1",
   Effect.stdout (downloadingTemplateMessage "aws-node"),
   Effect.downloadTemplate "https://github.com/serverless/examples/tree/master/aws-node"
     (some "aws-node") "demo1",
   Effect.fsAccess "/work/demo1/package.json",
   Effect.stdout (installingDependenciesMessage "demo1"),
   Effect.npmInstall "npm" "/work/demo1"]

/-- Finalization effects of the `demo1` scenario: marker-file unlink,
success message, configuration resolution. -/
def finishTailTrace : List Effect :=
  [Effect.unlink "/work/demo1/serverless.template.yml",
   Effect.stdout (successMessage "demo1"),
   Effect.resolveConfigurationPath "/work/demo1",
   Effect.readConfiguration "/work/demo1/serverless.yml",
   Effect.resolveVariables]

/-- The session context after the `demo1` scenario succeeds. -/
def ctxDemoSuccess : Ctx :=
  { cwd := "/work", options := { name := some "demo1", template := some "aws-node" },
    serviceDir := some "/work/demo1", configurationFilename := some "serverless.yml",
    configuration := some "configuration-data" }

end Serverless

namespace Serverless

/-- C1 counterexample: on the remote-URL path a failure that *is* this
system's structured error (`ServerlessError`) is not re-thrown unchanged,
contrary to the claim — it is wrapped into a fresh `INVALID_TEMPLATE_URL`
error, distinct from the original. -/
theorem c1_counterexample_structured_error_is_wrapped :
    run (envDownloadFails (.serverless "boom" "SOME_CODE")) ctxUrlDemo =
      (.error (.serverless (invalidTemplateUrlMessage "boom") "INVALID_TEMPLATE_URL"),
        urlDownloadTrace) ∧
    JsError.serverless (invalidTemplateUrlMessage "boom") "INVALID_TEMPLATE_URL" ≠
      JsError.serverless "boom" "SOME_CODE" :=
  ⟨rfl, by decide⟩

/-- C1 (amended): when the template download fails, `run` re-throws the
failure unchanged if it is NOT this system's structured error, and wraps a
structured `ServerlessError` with added context: tagged
`INVALID_TEMPLATE_URL` (including the underlying message) on the
remote-URL path, and `TEMPLATE_DOWNLOAD_FAILED` (with the underlying
message) on the named-template path (taking the non-`ENOENT` case there,
which C2 covers). -/
theorem c1_amended_download_failure_wrapping (m c : String) (co : Option String)
    (hco : co ≠ some "ENOENT") (hc : c ≠ "ENOENT") :
    (run (envDownloadFails (.generic m co)) ctxUrlDemo =
      (.error (.generic m co), urlDownloadTrace)) ∧
    (run (envDownloadFails (.serverless m c)) ctxUrlDemo =
      (.error (.serverless (invalidTemplateUrlMessage m) "INVALID_TEMPLATE_URL"),
        urlDownloadTrace)) ∧
    (run (envDownloadFails (.generic m co)) ctxDemoNamed =
      (.error (.generic m co), namedDownloadTrace)) ∧
    (run (envDownloadFails (.serverless m c)) ctxDemoNamed =
      (.error (.serverless (templateDownloadFailedMessage m) "TEMPLATE_DOWNLOAD_FAILED"),
        namedDownloadTrace)) := by
  have h1 : ("demo1" : String).isEmpty = false := by decide
  have h2 : ("aws-node" : String).isEmpty = false := by decide
  have h3 : ("/work" : String).isEmpty = false := by decide
  have h4 : isValidServiceName "demo1" = true := by decide
  have h5 : ("/work" : String) ++ "/" ++ "demo1" = "/work/demo1" := by decide
  refine ⟨rfl, rfl, ?_, ?_⟩
  · simp [run, runAfterGuard, pickOrUseTemplate, namedTemplateBranch, resolveProjectNameInput,
      finishProject, M.bind, M.withEffects, envDownloadFails, envDefault, ctxWith, ctxDemoNamed,
      namedDownloadTrace, optTruthy, Options.presentTemplateOptionCount, JsError.code,
      JsError.isServerlessError, joinPath, h1, h2, h3, h4, h5, hco]
  · simp [run, runAfterGuard, pickOrUseTemplate, namedTemplateBranch, resolveProjectNameInput,
      finishProject, M.bind, M.withEffects, envDownloadFails, envDefault, ctxWith, ctxDemoNamed,
      namedDownloadTrace, optTruthy, Options.presentTemplateOptionCount, JsError.code,
      JsError.isServerlessError, JsError.message, joinPath, h1, h2, h3, h4, h5, hc]

/-- C1 witness: a structured download failure on the named-template path is
wrapped as `TEMPLATE_DOWNLOAD_FAILED`. -/
theorem c1_amended_witness :
    run (envDownloadFails (.serverless "oops" "SOME_CODE")) ctxDemoNamed =
      (.error (.serverless (templateDownloadFailedMessage "oops") "TEMPLATE_DOWNLOAD_FAILED"),
        namedDownloadTrace) :=
  (c1_amended_download_failure_wrapping "oops" "SOME_CODE" none (by decide) (by decide)).2.2.2

/-- C2: an `ENOENT` download failure on the named-template path yields
`INVALID_TEMPLATE` when the template option was explicitly supplied
(whether the failure is generic or structured), while after an
interactively picked template the same `ENOENT` failure is not reported as
`INVALID_TEMPLATE` (a generic one is re-thrown unchanged, a structured one
becomes `TEMPLATE_DOWNLOAD_FAILED`). -/
theorem c2_enoent_explicit_vs_interactive (m : String) :
    (run (envDownloadFails (.generic m (some "ENOENT"))) ctxDemoNamed =
      (.error (.serverless invalidTemplateMessage "INVALID_TEMPLATE"), namedDownloadTrace)) ∧
    (run (envDownloadFails (.serverless m "ENOENT")) ctxDemoNamed =
      (.error (.serverless invalidTemplateMessage "INVALID_TEMPLATE"), namedDownloadTrace)) ∧
    (run (envDownloadFails (.generic m (some "ENOENT"))) (ctxWith {}) =
      (.error (.generic m (some "ENOENT")), pickedDownloadTrace)) ∧
    (run (envDownloadFails (.serverless m "ENOENT")) (ctxWith {}) =
      (.error (.serverless (templateDownloadFailedMessage m) "TEMPLATE_DOWNLOAD_FAILED"),
        pickedDownloadTrace)) :=
  ⟨rfl, rfl, rfl, rfl⟩

/-- C2 witness: a generic `ENOENT` failure with an explicit template
option yields `INVALID_TEMPLATE`. -/
theorem c2_enoent_explicit_vs_interactive_witness :
    run (envDownloadFails (.generic "not found" (some "ENOENT"))) ctxDemoNamed =
      (.error (.serverless invalidTemplateMessage "INVALID_TEMPLATE"), namedDownloadTrace) :=
  (c2_enoent_explicit_vs_interactive "not found").1

/-- C3: with two or more of the template-source keys present, `run` throws
`MULTIPLE_TEMPLATE_OPTIONS_PROVIDED` with an empty effect trace — before
any prompt, filesystem, network, or subprocess interaction. -/
theorem c3_multiple_template_options_guard (env : Env) (ctx : Ctx)
    (h : 2 ≤ ctx.options.presentTemplateOptionCount) :
    run env ctx =
      (.error (.serverless multipleTemplateOptionsMessage "MULTIPLE_TEMPLATE_OPTIONS_PROVIDED"),
        []) := by
  unfold run
  rw [if_pos (by omega)]

/-- C3 witness: `template-path` together with `template`. -/
theorem c3_multiple_template_options_guard_witness :
    run envDefault (ctxWith { templatePath := some "./tpl", template := some "aws-node" }) =
      (.error (.serverless multipleTemplateOptionsMessage "MULTIPLE_TEMPLATE_OPTIONS_PROVIDED"),
        []) :=
  c3_multiple_template_options_guard envDefault _ (by decide)

/-- C4: `isApplicable` throws `NOT_APPLICABLE_SERVICE_OPTIONS` whenever a
service directory is active and a scaffold-only option key is present, and
when it does not throw it returns `true` exactly when no service directory
is active. -/
theorem c4_isApplicable_contract (serviceDir : Option String) (options : Options) :
    (optTruthy serviceDir = true → options.hasNotApplicableOption = true →
      isApplicable serviceDir options =
        .error (.serverless notApplicableServiceOptionsMessage
          "NOT_APPLICABLE_SERVICE_OPTIONS")) ∧
    (∀ b : Bool, isApplicable serviceDir options = .ok b →
      (b = true ↔ optTruthy serviceDir = false)) := by
  constructor
  · intro h1 h2
    simp [isApplicable, h1, h2]
  · intro b hb
    unfold isApplicable at hb
    by_cases hc : (optTruthy serviceDir && options.hasNotApplicableOption) = true
    · simp [hc] at hb
    · rw [if_neg] at hb
      · cases hb
        cases h : optTruthy serviceDir <;> simp
      · simpa using hc

/-- C4 witness: `name` inside an active service directory is a hard error. -/
theorem c4_isApplicable_contract_witness :
    isApplicable (some "/srv/app") { name := some "x" } =
      .error (.serverless notApplicableServiceOptionsMessage "NOT_APPLICABLE_SERVICE_OPTIONS") :=
  (c4_isApplicable_contract (some "/srv/app") { name := some "x" }).1 (by decide) (by decide)

end Serverless

namespace Serverless

/-- C5 counterexample: an explicit but empty `name` option (`""` is among
the claim's examples) does not throw `INVALID_PROJECT_NAME` — the empty
string is falsy, so the naming step falls through to the interactive
prompt and succeeds. -/
theorem c5_counterexample_empty_name_prompts :
    resolveProjectNameInput envDefault { name := some "" } "/work" =
      (.ok "answered-name", [Effect.promptProjectName]) ∧
    (resolveProjectNameInput envDefault { name := some "" } "/work").1 ≠
      .error (.serverless invalidProjectNameMessage "INVALID_PROJECT_NAME") :=
  ⟨rfl, fun h => Except.noConfusion h⟩

set_option maxRecDepth 4000 in
/-- C5 (amended): for a non-empty explicit name, the naming step throws
`INVALID_PROJECT_NAME` when the name fails the pattern (the claim's
examples `1abc`, `abc_def` and a 130-character string do fail it), throws
`TARGET_FOLDER_ALREADY_EXISTS` naming the path when the name is valid but
taken, and otherwise returns the name; an empty explicit name instead
falls through to the interactive prompt. -/
theorem c5_amended_explicit_name_validation (env : Env) (workingDir n : String)
    (hn : n ≠ "") :
    (isValidServiceName n = false →
      resolveProjectNameInput env { name := some n } workingDir =
        (.error (.serverless invalidProjectNameMessage "INVALID_PROJECT_NAME"), [])) ∧
    (isValidServiceName n = true → env.pathExists (joinPath workingDir n) = true →
      resolveProjectNameInput env { name := some n } workingDir =
        (.error (.serverless (pathTakenMessage n) "TARGET_FOLDER_ALREADY_EXISTS"),
          [Effect.fsAccess (joinPath workingDir n)])) ∧
    (isValidServiceName n = true → env.pathExists (joinPath workingDir n) = false →
      resolveProjectNameInput env { name := some n } workingDir =
        (.ok n, [Effect.fsAccess (joinPath workingDir n)])) ∧
    (resolveProjectNameInput env { name := some "" } workingDir = projectNameInput env) ∧
    isValidServiceName "1abc" = false ∧ isValidServiceName "abc_def" = false ∧
    isValidServiceName (String.mk (List.replicate 130 'a')) = false := by
  have hne : n.isEmpty = false := by
    cases hh : n.isEmpty
    · rfl
    · exact absurd ((String.isEmpty_iff n).mp hh) hn
  refine ⟨?_, ?_, ?_, rfl, by decide, by decide, by decide⟩
  · intro hv
    simp [resolveProjectNameInput, hne, hv]
  · intro hv hx
    simp [resolveProjectNameInput, hne, hv, hx]
  · intro hv hx
    simp [resolveProjectNameInput, hne, hv, hx]

/-- C5 witness: the explicit name `1abc` is rejected with
`INVALID_PROJECT_NAME`. -/
theorem c5_amended_witness :
    resolveProjectNameInput envDefault { name := some "1abc" } "/work" =
      (.error (.serverless invalidProjectNameMessage "INVALID_PROJECT_NAME"), []) :=
  (c5_amended_explicit_name_validation envDefault "/work" "1abc" (by decide)).1 (by decide)

/-- C6 counterexample: the explicit name `" demo "` is rejected with
`INVALID_PROJECT_NAME` even though its trimmed form `demo` passes the
naming pattern — explicit names are validated untrimmed, contrary to the
claim that every name is trimmed before validation. -/
theorem c6_counterexample_explicit_name_not_trimmed :
    resolveProjectNameInput envDefault { name := some " demo " } "/work" =
      (.error (.serverless invalidProjectNameMessage "INVALID_PROJECT_NAME"), []) ∧
    isValidServiceName (jsTrim " demo ") = true :=
  ⟨rfl, by decide⟩

/-- C6 (amended): only interactively entered names are trimmed — the prompt
returns the accepted answer trimmed, and its validator checks the pattern
and the collision on the trimmed input; a name supplied via the `name`
option is validated, collision-checked and returned verbatim, untrimmed. -/
theorem c6_amended_trim_only_interactive (env : Env) (pathProbe : String → Bool)
    (workingDir input n : String) (hn : n ≠ "") :
    (projectNameInput env =
      (.ok (jsTrim env.projectNameAnswer), [Effect.promptProjectName])) ∧
    (projectNameValidate pathProbe workingDir input = none ↔
      (isValidServiceName (jsTrim input) = true ∧
        pathProbe (joinPath workingDir (jsTrim input)) = false)) ∧
    (isValidServiceName n = true → env.pathExists (joinPath workingDir n) = false →
      resolveProjectNameInput env { name := some n } workingDir =
        (.ok n, [Effect.fsAccess (joinPath workingDir n)])) := by
  have hne : n.isEmpty = false := by
    cases hh : n.isEmpty
    · rfl
    · exact absurd ((String.isEmpty_iff n).mp hh) hn
  refine ⟨rfl, ?_, ?_⟩
  · unfold projectNameValidate
    cases hv : isValidServiceName (jsTrim input) <;>
      cases hx : pathProbe (joinPath workingDir (jsTrim input)) <;>
        simp [hv, hx]
  · intro hv hx
    simp [resolveProjectNameInput, hne, hv, hx]

/-- C6 witness: a valid, collision-free explicit name is returned verbatim. -/
theorem c6_amended_witness :
    resolveProjectNameInput envDefault { name := some "demo" } "/work" =
      (.ok "demo", [Effect.fsAccess (joinPath "/work" "demo")]) :=
  (c6_amended_trim_only_interactive envDefault (fun _ => false) "/work" "x" "demo"
    (by decide)).2.2 (by decide) (by decide)

end Serverless

namespace Serverless

set_option maxHeartbeats 800000 in
/-- C7: with a `package.json` in the new project directory, `run` invokes
the npm install; an `ENOENT` failure (missing binary) only emits a warning
and the run still completes successfully, any other failure (generic or
structured) aborts with `DEPENDENCIES_INSTALL_FAILED` carrying the
underlying message, a successful install completes normally, and with no
manifest the install is skipped silently (no install effect, no install
output). -/
theorem c7_dependency_install_outcomes (m c : String) (co : Option String)
    (hco : co ≠ some "ENOENT") (hc : c ≠ "ENOENT") :
    (run (envSpawnFails (some (.generic m (some "ENOENT")))) ctxDemoNamed =
      (.ok ctxDemoSuccess,
        installAttemptTrace ++ [Effect.stdout npmNotFoundWarning] ++ finishTailTrace)) ∧
    (run (envSpawnFails (some (.generic m co))) ctxDemoNamed =
      (.error (.serverless (dependenciesInstallFailedMessage m) "DEPENDENCIES_INSTALL_FAILED"),
        installAttemptTrace)) ∧
    (run (envSpawnFails (some (.serverless m c))) ctxDemoNamed =
      (.error (.serverless (dependenciesInstallFailedMessage m) "DEPENDENCIES_INSTALL_FAILED"),
        installAttemptTrace)) ∧
    (run (envSpawnFails none) ctxDemoNamed =
      (.ok ctxDemoSuccess, installAttemptTrace ++ finishTailTrace)) ∧
    (run envDefault ctxDemoNamed =
      (.ok ctxDemoSuccess,
        namedDownloadTrace ++ [Effect.fsAccess "/work/demo1/package.json"] ++
          finishTailTrace)) := by
  have h1 : ("demo1" : String).isEmpty = false := by decide
  have h2 : ("aws-node" : String).isEmpty = false := by decide
  have h3 : ("/work" : String).isEmpty = false := by decide
  have h4 : isValidServiceName "demo1" = true := by decide
  have h5 : ("/work" : String) ++ "/" ++ "demo1" = "/work/demo1" := by decide
  have h6 : decide (15 ≤ ("/work/demo1" : String).length) = false := by decide
  have h7 : decide (15 ≤ ("/work/demo1/package.json" : String).length) = true := by decide
  have h8 : ("/work/demo1" : String) ++ "/" ++ "package.json" = "/work/demo1/package.json" :=
    by decide
  have h9 : ("/work/demo1/serverless.yml" : String).drop (("/work/demo1" : String).length + 1) =
      "serverless.yml" := by decide
  refine ⟨?_, ?_, ?_, by decide, by decide⟩
  · simp [run, runAfterGuard, pickOrUseTemplate, namedTemplateBranch, resolveProjectNameInput,
      finishProject, M.bind, M.withEffects, envSpawnFails, envDefault, ctxWith, ctxDemoNamed,
      ctxDemoSuccess, installAttemptTrace, finishTailTrace, optTruthy,
      Options.presentTemplateOptionCount, JsError.code, JsError.message, joinPath,
      h1, h2, h3, h4, h5, h6, h7, h8, h9]
  · simp [run, runAfterGuard, pickOrUseTemplate, namedTemplateBranch, resolveProjectNameInput,
      finishProject, M.bind, M.withEffects, envSpawnFails, envDefault, ctxWith, ctxDemoNamed,
      ctxDemoSuccess, installAttemptTrace, optTruthy, Options.presentTemplateOptionCount,
      JsError.code, JsError.message, joinPath, h1, h2, h3, h4, h5, h6, h7, h8, hco]
  · simp [run, runAfterGuard, pickOrUseTemplate, namedTemplateBranch, resolveProjectNameInput,
      finishProject, M.bind, M.withEffects, envSpawnFails, envDefault, ctxWith, ctxDemoNamed,
      ctxDemoSuccess, installAttemptTrace, optTruthy, Options.presentTemplateOptionCount,
      JsError.code, JsError.message, joinPath, h1, h2, h3, h4, h5, h6, h7, h8, hc]

/-- C7 witness: a non-`ENOENT` spawn failure aborts with
`DEPENDENCIES_INSTALL_FAILED`. -/
theorem c7_dependency_install_outcomes_witness :
    run (envSpawnFails (some (.generic "exited with code 1" none))) ctxDemoNamed =
      (.error (.serverless (dependenciesInstallFailedMessage "exited with code 1")
          "DEPENDENCIES_INSTALL_FAILED"),
        installAttemptTrace) :=
  (c7_dependency_install_outcomes "exited with code 1" "x" none (by decide) (by decide)).2.1

/-- C8: with options `template = aws-node`, `name = demo1` and an empty
working directory, `run` requests the download from
`https://github.com/serverless/examples/tree/master/aws-node` for project
`demo1`, and on success sets the session context's service directory to
the absolute path `/work/demo1`. -/
theorem c8_named_template_scenario :
    run envDefault (ctxWith { template := some "aws-node", name := some "demo1" }) =
      (.ok { cwd := "/work",
             options := { name := some "demo1", template := some "aws-node" },
             serviceDir := some "/work/demo1",
             configurationFilename := some "serverless.yml",
             configuration := some "configuration-data" },
        [Effect.fsAccess "/work/demo1",
         Effect.stdout (downloadingTemplateMessage "aws-node"),
         Effect.downloadTemplate "https://github.com/serverless/examples/tree/master/aws-node"
           (some "aws-node") "demo1",
         Effect.fsAccess "/work/demo1/package.json",
         Effect.unlink "/work/demo1/serverless.template.yml",
         Effect.stdout (successMessage "demo1"),
         Effect.resolveConfigurationPath "/work/demo1",
         Effect.readConfiguration "/work/demo1/serverless.yml",
         Effect.resolveVariables]) := by
  decide

/-- C9: with no options, confirmation answered `Yes` and the template
picker answered `other`, `run` prompts twice, prints the hint, and returns
without error with the session context unmodified and no
directory-creating effect performed. -/
theorem c9_other_choice_noop (env : Env) (ctx : Ctx)
    (hopts : ctx.options = {}) (hyes : env.confirmAnswer = "Yes")
    (hother : env.projectTypeAnswer = "other") :
    run env ctx =
      (.ok ctx, [Effect.promptConfirmNewProject, Effect.promptProjectType,
        Effect.stdout otherTemplateHintMessage]) := by
  simp [run, runAfterGuard, pickOrUseTemplate, interactivePickBranch, M.withEffects,
    Options.presentTemplateOptionCount, optTruthy, hopts, hyes, hother]

/-- C9 witness. -/
theorem c9_other_choice_noop_witness :
    run { envDefault with projectTypeAnswer := "other" } (ctxWith {}) =
      (.ok (ctxWith {}), [Effect.promptConfirmNewProject, Effect.promptProjectType,
        Effect.stdout otherTemplateHintMessage]) :=
  c9_other_choice_noop _ _ rfl rfl rfl

/-- C10: the multiple-template-options guard tests key presence while the
source dispatch tests truthiness — with two or more template-source keys
present but all mapped to empty strings, `run` still throws
`MULTIPLE_TEMPLATE_OPTIONS_PROVIDED` (with no effect performed), even
though the dispatch after the guard would treat all of them as absent and
fall through to the interactive flow. -/
theorem c10_presence_guard_truthiness_dispatch (env : Env) (ctx : Ctx)
    (hcount : 2 ≤ ctx.options.presentTemplateOptionCount)
    (hp : ctx.options.templatePath = none ∨ ctx.options.templatePath = some "")
    (ht : ctx.options.template = none ∨ ctx.options.template = some "")
    (hu : ctx.options.templateUrl = none ∨ ctx.options.templateUrl = some "") :
    run env ctx =
      (.error (.serverless multipleTemplateOptionsMessage "MULTIPLE_TEMPLATE_OPTIONS_PROVIDED"),
        []) ∧
    (∀ workingDir, runAfterGuard env ctx workingDir = interactivePickBranch env ctx workingDir) :=
    by
  refine ⟨?_, ?_⟩
  · unfold run
    rw [if_pos (by omega)]
  · intro workingDir
    have he : ("" : String).isEmpty = true := by decide
    have hp2 : optTruthy ctx.options.templatePath = false := by
      rcases hp with h | h <;> simp [h, optTruthy, he]
    have hu2 : optTruthy ctx.options.templateUrl = false := by
      rcases hu with h | h <;> simp [h, optTruthy, he]
    rcases ht with h | h <;>
      simp [runAfterGuard, pickOrUseTemplate, hp2, hu2, h, he]

/-- C10 witness: `template-path` and `template` both present as empty
strings. -/
theorem c10_presence_guard_truthiness_dispatch_witness :
    run envDefault (ctxWith { templatePath := some "", template := some "" }) =
      (.error (.serverless multipleTemplateOptionsMessage "MULTIPLE_TEMPLATE_OPTIONS_PROVIDED"),
        []) :=
  (c10_presence_guard_truthiness_dispatch envDefault _ (by decide) (by simp [ctxWith])
    (by simp [ctxWith]) (by simp [ctxWith])).1

end Serverless
